import Mathlib

/-!
Verification development for the Agent Artie repository: a thin Next.js
glue layer around a hosted chat widget.  We shallowly embed the three
source artefacts that carry contract logic:

* `next.config.ts` — the exported Next.js configuration object
  (static-export output mode and the security-header rules);
* `app/layout.tsx` — the `RootLayout` component injecting the ChatKit
  CDN script;
* the session-issuer request handler (`api/create-session/route.ts`),
  whose code is not present in the repository snapshot; it is modelled
  from the specification (sections 3, 4.1, 6 and 7 of the design spec)
  and from the repository docs (CLAUDE.md, DEPLOYMENT.md).
-/

namespace AgentArtie

/-! ## Embedding of `next.config.ts` -/

/-- One key/value header pair, as in the objects of the `headers` array
of `next.config.ts`. -/
structure HeaderKV where
  key : String
  value : String
deriving DecidableEq, Repr

/-- One rule returned by the `headers()` function of `next.config.ts`:
a path `source` pattern and the headers attached to matching paths. -/
structure HeaderRule where
  source : String
  headers : List HeaderKV
deriving DecidableEq, Repr

/-- The fields of the `nextConfig` object relevant to its contract:
the `output` build mode and the resolved result of `headers()`.
(`headers()` is an async function of no arguments returning a constant
list; we embed its resolved value.) -/
structure NextConfigT where
  output : Option String
  headerRules : List HeaderRule
deriving DecidableEq, Repr

/-- The `nextConfig` object of `next.config.ts`, lines 3–38. -/
def nextConfig : NextConfigT :=
  { output := some "export"
    headerRules :=
      [ { source := "/(.*)"
          headers :=
            [ { key := "X-Frame-Options", value := "DENY" }
            , { key := "X-Content-Type-Options", value := "nosniff" }
            , { key := "Referrer-Policy", value := "origin-when-cross-origin" } ] } ] }

/-- Modelled from the spec: a Next.js build under `output: export`
(static export) contains no server-side request handlers, so no server
endpoint such as `POST /api/create-session` is served by the built
artifact.  We model the framework semantics as: the build serves server
endpoints exactly when the configured output mode is not static export. -/
def servesServerEndpoints (c : NextConfigT) : Bool :=
  c.output ≠ some "export"

/-! ## Embedding of `app/layout.tsx` -/

/-- A rendered React node: a text node or an element with a tag name,
attribute list and children.  The `children` prop of `RootLayout` is an
opaque node passed through. -/
inductive Node where
  | text (s : String)
  | element (tag : String) (attrs : List (String × String)) (children : List Node)

/-- The ChatKit CDN `Script` element rendered inside `<head>` by
`RootLayout` (app/layout.tsx, lines 143–146). -/
def chatkitScript : Node :=
  .element "Script"
    [ ("src", "https://cdn.platform.openai.com/deployments/chatkit/chatkit.js")
    , ("strategy", "beforeInteractive") ] []

/-- `RootLayout` of `app/layout.tsx`: renders an `html` document whose
head holds the ChatKit CDN script and whose body wraps the given
children. -/
def RootLayout (children : Node) : Node :=
  .element "html" [("lang", "en")]
    [ .element "head" [] [chatkitScript]
    , .element "body" [("className", "antialiased")] [children] ]

/-- Attribute lookup on a node: the value bound to a key in an element
node, if any. -/
def Node.attr (n : Node) (k : String) : Option String :=
  match n with
  | .text _ => none
  | .element _ attrs _ => (attrs.find? (fun p => p.1 == k)).map Prod.snd

/-! ## Embedding of the Session Issuer

The handler `api/create-session/route.ts` is not present in the
repository snapshot (only its documentation is), so every definition
below is modelled from the specification. -/

/-- Modelled from the spec: the `workflow` object of the Session
Request body (section 6), `workflow?: ⟨ id?: string|null ⟩`. -/
structure WorkflowObj where
  id : Option String
deriving DecidableEq, Repr

/-- Modelled from the spec: the Session Request (sections 3 and 6) —
optional nested `workflow.id`, optional flat `workflowId`, optional
file-upload toggle, plus the incoming `chatkit_session_id` cookie
value when the request carries one. -/
structure SessionRequest where
  workflow : Option WorkflowObj
  workflowId : Option String
  fileUploadEnabled : Option Bool
  cookie : Option String
deriving DecidableEq, Repr

/-- Modelled from the spec: the process-wide configuration read once at
start (section 6) — the API credential and the default workflow
identifier, each possibly absent. -/
structure Config where
  apiKey : Option String
  defaultWorkflowId : Option String
deriving DecidableEq, Repr

/-- Modelled from the spec: the outcome of the single outbound call to
the remote chat-session API — a success carrying `client_secret` and
`expires_after`, a rejection carrying the remote status and the nested
`error.message` plus optional structured details when present, or a
transport-level failure (section 4.1). -/
inductive UpstreamOutcome where
  | success (client_secret : String) (expires_after : Nat)
  | rejection (status : Nat) (errorMessage : Option String)
      (details : Option (List (String × String)))
  | transportFailure
deriving DecidableEq, Repr

/-- Modelled from the spec: the error taxonomy of section 7 restricted
to the server side. -/
inductive ErrorKind where
  | configurationError
  | upstreamRejection
  | upstreamUnavailable
deriving DecidableEq, Repr

/-- Modelled from the spec: the response body shapes of section 6 —
success `⟨ client_secret, expires_after ⟩` or failure
`⟨ error, details? ⟩`. -/
inductive RespBody where
  | success (client_secret : String) (expires_after : Nat)
  | failure (error : String) (details : Option (List (String × String)))
deriving DecidableEq, Repr

/-- Modelled from the spec: the `Set-Cookie` header of section 6,
`chatkit_session_id=<id>; HttpOnly; SameSite=Lax; Max-Age=2592000`. -/
structure SetCookie where
  name : String
  value : String
  httpOnly : Bool
  sameSite : String
  maxAge : Nat
deriving DecidableEq, Repr

/-- Modelled from the spec: the full observable result of one handler
invocation — HTTP status, body, optional `Set-Cookie` header, the
error classification when the invocation failed, and the number of
outbound network calls performed (section 4.1, side effects). -/
structure HandlerResult where
  status : Nat
  body : RespBody
  setCookie : Option SetCookie
  errorKind : Option ErrorKind
  outboundCalls : Nat
deriving DecidableEq, Repr

/-- Modelled from the spec: resolution of the effective workflow
identifier with precedence request body `workflow.id` → request body
`workflowId` → process-wide default (section 4.1). -/
def resolveWorkflowId (req : SessionRequest) (cfg : Config) : Option String :=
  match req.workflow.bind WorkflowObj.id with
  | some w => some w
  | none =>
    match req.workflowId with
    | some w => some w
    | none => cfg.defaultWorkflowId

/-- Modelled from the spec: the generic failure message used when no
specific upstream message is available (sections 4.1 and 7). -/
def genericFailureMessage : String := "Failed to create session"

/-- Modelled from the spec: a remote status is usable for mirroring
when it is a well-formed HTTP error status (section 4.1, a default
failure status is used when the remote status is unusable). -/
def usableStatus (s : Nat) : Bool := decide (400 ≤ s) && decide (s < 600)

/-- Modelled from the spec: the default failure status, a server-error
code (section 7, `UpstreamUnavailable` status defaults to
server-error). -/
def defaultFailureStatus : Nat := 500

/-- Modelled from the spec: the Tracking Cookie attached on success —
name `chatkit_session_id`, HTTP-only, same-site-lax, 30-day lifetime;
the value is the incoming cookie value when present, else a freshly
generated identifier (sections 3 and 6). -/
def trackingCookie (reqCookie : Option String) (freshId : String) : SetCookie :=
  { name := "chatkit_session_id"
    value := reqCookie.getD freshId
    httpOnly := true
    sameSite := "Lax"
    maxAge := 2592000 }

/-- Modelled from the spec: the Session Issuer contract
`handle(request) → response` of section 4.1.  The fresh cookie
identifier and the outcome of the (at most one) outbound call are
passed in explicitly, keeping the handler a pure function of its
environment.  Steps, in order: resolve the workflow identifier
(`ConfigurationError` with zero outbound calls when unresolvable);
check the API credential (`ConfigurationError` with zero outbound
calls when absent); otherwise perform the single outbound call and
relay its outcome — success passes `client_secret` and
`expires_after` through verbatim with status 200 and the Tracking
Cookie; rejection relays the extracted message (generic fallback when
absent) with the mirrored status (default when unusable); transport
failure yields the generic message with the default server-error
status. -/
def handle (cfg : Config) (req : SessionRequest) (freshId : String)
    (upstream : UpstreamOutcome) : HandlerResult :=
  match resolveWorkflowId req cfg with
  | none =>
    { status := 400
      body := .failure "Missing workflow id" none
      setCookie := none
      errorKind := some .configurationError
      outboundCalls := 0 }
  | some _ =>
    match cfg.apiKey with
    | none =>
      { status := 500
        body := .failure "Missing OPENAI_API_KEY" none
        setCookie := none
        errorKind := some .configurationError
        outboundCalls := 0 }
    | some _ =>
      match upstream with
      | .success cs ea =>
        { status := 200
          body := .success cs ea
          setCookie := some (trackingCookie req.cookie freshId)
          errorKind := none
          outboundCalls := 1 }
      | .rejection s msg det =>
        { status := if usableStatus s then s else defaultFailureStatus
          body := .failure (msg.getD genericFailureMessage) det
          setCookie := none
          errorKind := some .upstreamRejection
          outboundCalls := 1 }
      | .transportFailure =>
        { status := defaultFailureStatus
          body := .failure genericFailureMessage none
          setCookie := none
          errorKind := some .upstreamUnavailable
          outboundCalls := 1 }

/-! ## Sample concrete inputs used by the witnesses -/

/-- A process configuration holding a credential and a default
workflow identifier. -/
def cfgSample : Config := { apiKey := some "sk_test_123", defaultWorkflowId := some "wf_default" }

/-- A process configuration with no credential and no default. -/
def cfgEmpty : Config := { apiKey := none, defaultWorkflowId := none }

/-- An empty Session Request (all optional fields absent). -/
def reqEmpty : SessionRequest :=
  { workflow := none, workflowId := none, fileUploadEnabled := none, cookie := none }

/-- A Session Request carrying both a nested `workflow.id` and a flat
`workflowId`, plus an incoming Tracking Cookie value. -/
def reqBoth : SessionRequest :=
  { workflow := some { id := some "wf_nested" }
    workflowId := some "wf_flat"
    fileUploadEnabled := some true
    cookie := some "cookie_abc" }

/-! ## Helper lemmas -/

/-- Workflow resolution reads only the default identifier from the
configuration, never the credential. -/
theorem resolve_depends_only_on_default (req : SessionRequest) (c1 c2 : Config)
    (h : c1.defaultWorkflowId = c2.defaultWorkflowId) :
    resolveWorkflowId req c1 = resolveWorkflowId req c2 := by
  unfold resolveWorkflowId
  rw [h]

/-! ## Claim theorems -/

/-- C1: for every upstream success response carrying `client_secret`
and `expires_after`, `handle` returns a response whose body is exactly
those two values passed through verbatim, with HTTP status 200 and a
`Set-Cookie` header present. -/
theorem c1_success_passthrough (cfg : Config) (req : SessionRequest)
    (fid cs : String) (ea : Nat) (w k : String)
    (hw : resolveWorkflowId req cfg = some w) (hk : cfg.apiKey = some k) :
    (handle cfg req fid (.success cs ea)).status = 200 ∧
    (handle cfg req fid (.success cs ea)).body = .success cs ea ∧
    (handle cfg req fid (.success cs ea)).setCookie = some (trackingCookie req.cookie fid) := by
  simp [handle, hw, hk]

/-- C1 witness: the spec test vector `client_secret = "cs_abc"`,
`expires_after = 3600` on a concrete configured environment. -/
theorem c1_success_passthrough_witness :
    (handle cfgSample reqEmpty "fresh_id" (.success "cs_abc" 3600)).status = 200 ∧
    (handle cfgSample reqEmpty "fresh_id" (.success "cs_abc" 3600)).body = .success "cs_abc" 3600 ∧
    (handle cfgSample reqEmpty "fresh_id" (.success "cs_abc" 3600)).setCookie
      = some (trackingCookie reqEmpty.cookie "fresh_id") :=
  c1_success_passthrough cfgSample reqEmpty "fresh_id" "cs_abc" 3600
    "wf_default" "sk_test_123" rfl rfl

/-- C2: workflow-identifier resolution follows the fixed precedence
`workflow.id` → `workflowId` → configured default; `workflow.id`
beats both others whenever present, and when nothing resolves the
handler fails with `ConfigurationError` and makes zero outbound
calls. -/
theorem c2_workflow_precedence :
    (∀ (req : SessionRequest) (cfg : Config) (o : WorkflowObj) (w : String),
      req.workflow = some o → o.id = some w → resolveWorkflowId req cfg = some w) ∧
    (∀ (req : SessionRequest) (cfg : Config) (w : String),
      req.workflow.bind WorkflowObj.id = none → req.workflowId = some w →
      resolveWorkflowId req cfg = some w) ∧
    (∀ (req : SessionRequest) (cfg : Config),
      req.workflow.bind WorkflowObj.id = none → req.workflowId = none →
      resolveWorkflowId req cfg = cfg.defaultWorkflowId) ∧
    (∀ (cfg : Config) (req : SessionRequest) (fid : String) (up : UpstreamOutcome),
      resolveWorkflowId req cfg = none →
      (handle cfg req fid up).errorKind = some .configurationError ∧
      (handle cfg req fid up).outboundCalls = 0) := by
  refine ⟨?_, ?_, ?_, ?_⟩
  · intro req cfg o w h1 h2
    simp [resolveWorkflowId, h1, h2]
  · intro req cfg w h1 h2
    simp [resolveWorkflowId, h1, h2]
  · intro req cfg h1 h2
    simp [resolveWorkflowId, h1, h2]
  · intro cfg req fid up h
    simp [handle, h]

/-- C2 witness: on a request carrying both identifiers the nested one
wins over the flat one and the default; on an empty request against an
empty configuration the handler fails with `ConfigurationError` and
performs zero outbound calls. -/
theorem c2_workflow_precedence_witness :
    resolveWorkflowId reqBoth cfgSample = some "wf_nested" ∧
    ((handle cfgEmpty reqEmpty "fresh_id" .transportFailure).errorKind
        = some .configurationError ∧
      (handle cfgEmpty reqEmpty "fresh_id" .transportFailure).outboundCalls = 0) :=
  ⟨c2_workflow_precedence.1 reqBoth cfgSample { id := some "wf_nested" } "wf_nested" rfl rfl,
    c2_workflow_precedence.2.2.2 cfgEmpty reqEmpty "fresh_id" .transportFailure rfl⟩

/-- C3: the held API credential never influences (hence never appears
in) the response — two configurations differing only in the credential
value produce identical responses on every request and upstream
outcome; and on an upstream rejection the only upstream data crossing
the boundary is the extracted `error.message` and details. -/
theorem c3_credential_noninterference :
    (∀ (d : Option String) (k1 k2 : String) (req : SessionRequest)
        (fid : String) (up : UpstreamOutcome),
      handle { apiKey := some k1, defaultWorkflowId := d } req fid up
        = handle { apiKey := some k2, defaultWorkflowId := d } req fid up) ∧
    (∀ (cfg : Config) (req : SessionRequest) (fid : String) (s : Nat)
        (m : String) (det : Option (List (String × String))) (w k : String),
      resolveWorkflowId req cfg = some w → cfg.apiKey = some k →
      (handle cfg req fid (.rejection s (some m) det)).body = .failure m det) := by
  constructor
  · intro d k1 k2 req fid up
    have h := resolve_depends_only_on_default req
      { apiKey := some k1, defaultWorkflowId := d }
      { apiKey := some k2, defaultWorkflowId := d } rfl
    unfold handle
    rw [h]
  · intro cfg req fid s m det w k hw hk
    simp [handle, hw, hk]

/-- C3 witness: the spec test vector — an upstream rejection with
nested message `invalid_workflow` yields exactly that message in the
body, and swapping the credential leaves the response unchanged. -/
theorem c3_credential_noninterference_witness :
    (handle { apiKey := some "sk_A", defaultWorkflowId := some "wf_default" }
        reqEmpty "fresh_id" (.rejection 400 (some "invalid_workflow") none)
      = handle { apiKey := some "sk_B", defaultWorkflowId := some "wf_default" }
        reqEmpty "fresh_id" (.rejection 400 (some "invalid_workflow") none)) ∧
    (handle cfgSample reqEmpty "fresh_id"
        (.rejection 400 (some "invalid_workflow") none)).body
      = .failure "invalid_workflow" none :=
  ⟨c3_credential_noninterference.1 (some "wf_default") "sk_A" "sk_B" reqEmpty "fresh_id"
      (.rejection 400 (some "invalid_workflow") none),
    c3_credential_noninterference.2 cfgSample reqEmpty "fresh_id" 400 "invalid_workflow"
      none "wf_default" "sk_test_123" rfl rfl⟩

/-- C4: on every upstream rejection, the failure body's `error` equals
the nested `error.message` when present and the generic fallback when
absent, and the returned status mirrors the upstream status when
usable, defaulting otherwise. -/
theorem c4_rejection_relay (cfg : Config) (req : SessionRequest) (fid : String)
    (s : Nat) (det : Option (List (String × String))) (w k : String)
    (hw : resolveWorkflowId req cfg = some w) (hk : cfg.apiKey = some k) :
    (∀ m : String,
      (handle cfg req fid (.rejection s (some m) det)).body = .failure m det) ∧
    ((handle cfg req fid (.rejection s none det)).body
        = .failure genericFailureMessage det) ∧
    (∀ msg : Option String, usableStatus s = true →
      (handle cfg req fid (.rejection s msg det)).status = s) ∧
    (∀ msg : Option String, usableStatus s = false →
      (handle cfg req fid (.rejection s msg det)).status = defaultFailureStatus) := by
  refine ⟨?_, ?_, ?_, ?_⟩
  · intro m
    simp [handle, hw, hk]
  · simp [handle, hw, hk]
  · intro msg hs
    simp [handle, hw, hk, hs]
  · intro msg hs
    simp [handle, hw, hk, hs]

/-- C4 witness: a concrete rejection with a usable status 400 and one
with an unusable status 0. -/
theorem c4_rejection_relay_witness :
    ((handle cfgSample reqEmpty "fresh_id"
        (.rejection 400 (some "invalid_workflow") none)).body
      = .failure "invalid_workflow" none) ∧
    ((handle cfgSample reqEmpty "fresh_id" (.rejection 400 none none)).body
      = .failure genericFailureMessage none) ∧
    ((handle cfgSample reqEmpty "fresh_id"
        (.rejection 400 (some "invalid_workflow") none)).status = 400) ∧
    ((handle cfgSample reqEmpty "fresh_id"
        (.rejection 0 (some "invalid_workflow") none)).status = defaultFailureStatus) :=
  ⟨(c4_rejection_relay cfgSample reqEmpty "fresh_id" 400 none
      "wf_default" "sk_test_123" rfl rfl).1 "invalid_workflow",
    (c4_rejection_relay cfgSample reqEmpty "fresh_id" 400 none
      "wf_default" "sk_test_123" rfl rfl).2.1,
    (c4_rejection_relay cfgSample reqEmpty "fresh_id" 400 none
      "wf_default" "sk_test_123" rfl rfl).2.2.1 (some "invalid_workflow") rfl,
    (c4_rejection_relay cfgSample reqEmpty "fresh_id" 0 none
      "wf_default" "sk_test_123" rfl rfl).2.2.2 (some "invalid_workflow") rfl⟩

/-- C5: when the API credential is absent the handler fails with
`ConfigurationError` and performs zero outbound calls; in every case
an invocation performs at most one outbound call. -/
theorem c5_no_call_without_credential :
    (∀ (cfg : Config) (req : SessionRequest) (fid : String) (up : UpstreamOutcome),
      cfg.apiKey = none →
      (handle cfg req fid up).errorKind = some .configurationError ∧
      (handle cfg req fid up).outboundCalls = 0) ∧
    (∀ (cfg : Config) (req : SessionRequest) (fid : String) (up : UpstreamOutcome),
      (handle cfg req fid up).outboundCalls ≤ 1) := by
  constructor
  · intro cfg req fid up hk
    unfold handle
    cases h : resolveWorkflowId req cfg <;> simp [hk]
  · intro cfg req fid up
    unfold handle
    cases h : resolveWorkflowId req cfg
    · simp
    · cases hk : cfg.apiKey
      · simp
      · cases up <;> simp

/-- C5 witness: a credential-less configuration with a resolvable
workflow identifier still short-circuits to `ConfigurationError` with
zero outbound calls. -/
theorem c5_no_call_without_credential_witness :
    (handle { apiKey := none, defaultWorkflowId := some "wf_default" }
        reqEmpty "fresh_id" (.success "cs_abc" 3600)).errorKind
      = some .configurationError ∧
    (handle { apiKey := none, defaultWorkflowId := some "wf_default" }
        reqEmpty "fresh_id" (.success "cs_abc" 3600)).outboundCalls = 0 :=
  c5_no_call_without_credential.1
    { apiKey := none, defaultWorkflowId := some "wf_default" }
    reqEmpty "fresh_id" (.success "cs_abc" 3600) rfl

/-- C6: on a transport-level failure the handler returns the Failure
Response shape with the generic message, a server-error status, the
`UpstreamUnavailable` classification, and at most one (never retried)
outbound call. -/
theorem c6_transport_failure (cfg : Config) (req : SessionRequest) (fid : String)
    (w k : String)
    (hw : resolveWorkflowId req cfg = some w) (hk : cfg.apiKey = some k) :
    (handle cfg req fid .transportFailure).body
      = .failure genericFailureMessage none ∧
    500 ≤ (handle cfg req fid .transportFailure).status ∧
    (handle cfg req fid .transportFailure).status < 600 ∧
    (handle cfg req fid .transportFailure).errorKind = some .upstreamUnavailable ∧
    (handle cfg req fid .transportFailure).outboundCalls ≤ 1 := by
  simp [handle, hw, hk, defaultFailureStatus]

/-- C6 witness: a concrete transport failure against a configured
environment. -/
theorem c6_transport_failure_witness :
    (handle cfgSample reqEmpty "fresh_id" .transportFailure).body
      = .failure genericFailureMessage none ∧
    500 ≤ (handle cfgSample reqEmpty "fresh_id" .transportFailure).status ∧
    (handle cfgSample reqEmpty "fresh_id" .transportFailure).status < 600 ∧
    (handle cfgSample reqEmpty "fresh_id" .transportFailure).errorKind
      = some .upstreamUnavailable ∧
    (handle cfgSample reqEmpty "fresh_id" .transportFailure).outboundCalls ≤ 1 :=
  c6_transport_failure cfgSample reqEmpty "fresh_id" "wf_default" "sk_test_123" rfl rfl

/-- C7: on every successful invocation the `Set-Cookie` header sets
`chatkit_session_id` with HttpOnly, SameSite=Lax and Max-Age=2592000;
the incoming cookie value is preserved unchanged when present and a
fresh identifier is used only when absent; and two invocations with
the same incoming cookie but distinct upstream secrets produce
distinct response bodies (no secret reuse). -/
theorem c7_cookie_and_independence (cfg : Config) (req : SessionRequest)
    (fid cs : String) (ea : Nat) (w k : String)
    (hw : resolveWorkflowId req cfg = some w) (hk : cfg.apiKey = some k) :
    ((handle cfg req fid (.success cs ea)).setCookie
        = some (trackingCookie req.cookie fid) ∧
      (trackingCookie req.cookie fid).name = "chatkit_session_id" ∧
      (trackingCookie req.cookie fid).httpOnly = true ∧
      (trackingCookie req.cookie fid).sameSite = "Lax" ∧
      (trackingCookie req.cookie fid).maxAge = 2592000 ∧
      (∀ v : String, req.cookie = some v → (trackingCookie req.cookie fid).value = v) ∧
      (req.cookie = none → (trackingCookie req.cookie fid).value = fid)) ∧
    (∀ (fid2 cs2 : String) (ea2 : Nat), cs ≠ cs2 →
      (handle cfg req fid (.success cs ea)).body
        ≠ (handle cfg req fid2 (.success cs2 ea2)).body) := by
  constructor
  · refine ⟨by simp [handle, hw, hk], rfl, rfl, rfl, rfl, ?_, ?_⟩
    · intro v hv
      simp [trackingCookie, hv]
    · intro hv
      simp [trackingCookie, hv]
  · intro fid2 cs2 ea2 hne
    simp [handle, hw, hk, hne]

/-- C7 witness: a request carrying cookie value `cookie_abc` keeps that
exact value, and two calls returning secrets `cs_1` and `cs_2` yield
distinct bodies. -/
theorem c7_cookie_and_independence_witness :
    ((handle cfgSample reqBoth "fresh_id" (.success "cs_1" 3600)).setCookie
        = some (trackingCookie reqBoth.cookie "fresh_id") ∧
      (trackingCookie reqBoth.cookie "fresh_id").name = "chatkit_session_id" ∧
      (trackingCookie reqBoth.cookie "fresh_id").httpOnly = true ∧
      (trackingCookie reqBoth.cookie "fresh_id").sameSite = "Lax" ∧
      (trackingCookie reqBoth.cookie "fresh_id").maxAge = 2592000 ∧
      (trackingCookie reqBoth.cookie "fresh_id").value = "cookie_abc") ∧
    (handle cfgSample reqBoth "fresh_id" (.success "cs_1" 3600)).body
      ≠ (handle cfgSample reqBoth "fresh_id" (.success "cs_2" 3600)).body := by
  have h := c7_cookie_and_independence cfgSample reqBoth "fresh_id" "cs_1" 3600
    "wf_nested" "sk_test_123" rfl rfl
  refine ⟨⟨h.1.1, h.1.2.1, h.1.2.2.1, h.1.2.2.2.1, h.1.2.2.2.2.1, ?_⟩, ?_⟩
  · exact h.1.2.2.2.2.2.1 "cookie_abc" rfl
  · exact h.2 "fresh_id" "cs_2" 3600 (by decide)

/-- C8: the exported Next.js configuration has `output = "export"`
(static-export build mode), under which the built artifact serves no
server-side request handler. -/
theorem c8_static_export :
    nextConfig.output = some "export" ∧ servesServerEndpoints nextConfig = false := by
  constructor
  · rfl
  · rfl

/-- C9: `headers()` resolves to exactly one rule, with source pattern
matching every path, attaching exactly the three security headers with
these exact key/value pairs; the rule is a constant, independent of
the request path. -/
theorem c9_security_headers :
    nextConfig.headerRules
      = [ { source := "/(.*)"
            headers :=
              [ { key := "X-Frame-Options", value := "DENY" }
              , { key := "X-Content-Type-Options", value := "nosniff" }
              , { key := "Referrer-Policy", value := "origin-when-cross-origin" } ] } ] ∧
    nextConfig.headerRules.length = 1 ∧
    ∀ r ∈ nextConfig.headerRules, r.headers.length = 3 := by
  refine ⟨rfl, rfl, ?_⟩
  intro r hr
  simp [nextConfig] at hr
  subst hr
  rfl

/-- C10: for every children value, `RootLayout` renders the html
document whose head holds the ChatKit CDN script with the exact `src`
and `beforeInteractive` strategy, and whose body wraps the given
children unchanged; the script element is a constant independent of
the children. -/
theorem c10_root_layout (children : Node) :
    RootLayout children
      = .element "html" [("lang", "en")]
          [ .element "head" [] [chatkitScript]
          , .element "body" [("className", "antialiased")] [children] ] ∧
    chatkitScript.attr "src"
      = some "https://cdn.platform.openai.com/deployments/chatkit/chatkit.js" ∧
    chatkitScript.attr "strategy" = some "beforeInteractive" :=
  ⟨rfl, rfl, rfl⟩

end AgentArtie
